import Mathlib

/-!
Shallow embedding of the windirs crate (src/lib.rs): a resolver for Windows
known-folder identifiers built on the platform call SHGetKnownFolderPath.
The platform call is modelled as an oracle from the call's arguments to a
response, and the resolver additionally returns the list of platform events
(queries and buffer frees) it performs, so that side-effect invariants can
be stated and checked.
-/

namespace Windirs

/-- A 128-bit platform identifier, mirroring the GUID layout of the winapi
crate (one 32-bit word, two 16-bit words, eight bytes). -/
structure GUID where
  Data1 : Nat
  Data2 : Nat
  Data3 : Nat
  Data4 : List Nat
deriving DecidableEq, Repr

/-- Modelled from the spec: the FOLDERID constants referenced by the table
live in the external winapi crate, not in this repository.  The spec
describes them only as opaque, pairwise distinct 128-bit identifiers, so
each is modelled as a distinct opaque GUID, numbered in the order the
source lists them. -/
def mkGuid (n : Nat) : GUID := ⟨n, 0, 0, List.replicate 8 0⟩
def FOLDERID_NetworkFolder : GUID := mkGuid 0
def FOLDERID_ComputerFolder : GUID := mkGuid 1
def FOLDERID_InternetFolder : GUID := mkGuid 2
def FOLDERID_ControlPanelFolder : GUID := mkGuid 3
def FOLDERID_PrintersFolder : GUID := mkGuid 4
def FOLDERID_SyncManagerFolder : GUID := mkGuid 5
def FOLDERID_SyncSetupFolder : GUID := mkGuid 6
def FOLDERID_ConflictFolder : GUID := mkGuid 7
def FOLDERID_SyncResultsFolder : GUID := mkGuid 8
def FOLDERID_RecycleBinFolder : GUID := mkGuid 9
def FOLDERID_ConnectionsFolder : GUID := mkGuid 10
def FOLDERID_Fonts : GUID := mkGuid 11
def FOLDERID_Desktop : GUID := mkGuid 12
def FOLDERID_Startup : GUID := mkGuid 13
def FOLDERID_Programs : GUID := mkGuid 14
def FOLDERID_StartMenu : GUID := mkGuid 15
def FOLDERID_Recent : GUID := mkGuid 16
def FOLDERID_SendTo : GUID := mkGuid 17
def FOLDERID_Documents : GUID := mkGuid 18
def FOLDERID_Favorites : GUID := mkGuid 19
def FOLDERID_NetHood : GUID := mkGuid 20
def FOLDERID_PrintHood : GUID := mkGuid 21
def FOLDERID_Templates : GUID := mkGuid 22
def FOLDERID_CommonStartup : GUID := mkGuid 23
def FOLDERID_CommonPrograms : GUID := mkGuid 24
def FOLDERID_CommonStartMenu : GUID := mkGuid 25
def FOLDERID_PublicDesktop : GUID := mkGuid 26
def FOLDERID_ProgramData : GUID := mkGuid 27
def FOLDERID_CommonTemplates : GUID := mkGuid 28
def FOLDERID_PublicDocuments : GUID := mkGuid 29
def FOLDERID_RoamingAppData : GUID := mkGuid 30
def FOLDERID_LocalAppData : GUID := mkGuid 31
def FOLDERID_LocalAppDataLow : GUID := mkGuid 32
def FOLDERID_InternetCache : GUID := mkGuid 33
def FOLDERID_Cookies : GUID := mkGuid 34
def FOLDERID_History : GUID := mkGuid 35
def FOLDERID_System : GUID := mkGuid 36
def FOLDERID_SystemX86 : GUID := mkGuid 37
def FOLDERID_Windows : GUID := mkGuid 38
def FOLDERID_Profile : GUID := mkGuid 39
def FOLDERID_Pictures : GUID := mkGuid 40
def FOLDERID_ProgramFilesX86 : GUID := mkGuid 41
def FOLDERID_ProgramFilesCommonX86 : GUID := mkGuid 42
def FOLDERID_ProgramFilesX64 : GUID := mkGuid 43
def FOLDERID_ProgramFilesCommonX64 : GUID := mkGuid 44
def FOLDERID_ProgramFiles : GUID := mkGuid 45
def FOLDERID_ProgramFilesCommon : GUID := mkGuid 46
def FOLDERID_UserProgramFiles : GUID := mkGuid 47
def FOLDERID_UserProgramFilesCommon : GUID := mkGuid 48
def FOLDERID_AdminTools : GUID := mkGuid 49
def FOLDERID_CommonAdminTools : GUID := mkGuid 50
def FOLDERID_Music : GUID := mkGuid 51
def FOLDERID_Videos : GUID := mkGuid 52
def FOLDERID_Ringtones : GUID := mkGuid 53
def FOLDERID_PublicPictures : GUID := mkGuid 54
def FOLDERID_PublicMusic : GUID := mkGuid 55
def FOLDERID_PublicVideos : GUID := mkGuid 56
def FOLDERID_PublicRingtones : GUID := mkGuid 57
def FOLDERID_ResourceDir : GUID := mkGuid 58
def FOLDERID_LocalizedResourcesDir : GUID := mkGuid 59
def FOLDERID_CommonOEMLinks : GUID := mkGuid 60
def FOLDERID_CDBurning : GUID := mkGuid 61
def FOLDERID_UserProfiles : GUID := mkGuid 62
def FOLDERID_Playlists : GUID := mkGuid 63
def FOLDERID_SamplePlaylists : GUID := mkGuid 64
def FOLDERID_SampleMusic : GUID := mkGuid 65
def FOLDERID_SamplePictures : GUID := mkGuid 66
def FOLDERID_SampleVideos : GUID := mkGuid 67
def FOLDERID_PhotoAlbums : GUID := mkGuid 68
def FOLDERID_Public : GUID := mkGuid 69
def FOLDERID_ChangeRemovePrograms : GUID := mkGuid 70
def FOLDERID_AppUpdates : GUID := mkGuid 71
def FOLDERID_AddNewPrograms : GUID := mkGuid 72
def FOLDERID_Downloads : GUID := mkGuid 73
def FOLDERID_PublicDownloads : GUID := mkGuid 74
def FOLDERID_SavedSearches : GUID := mkGuid 75
def FOLDERID_QuickLaunch : GUID := mkGuid 76
def FOLDERID_Contacts : GUID := mkGuid 77
def FOLDERID_SidebarParts : GUID := mkGuid 78
def FOLDERID_SidebarDefaultParts : GUID := mkGuid 79
def FOLDERID_PublicGameTasks : GUID := mkGuid 80
def FOLDERID_GameTasks : GUID := mkGuid 81
def FOLDERID_SavedGames : GUID := mkGuid 82
def FOLDERID_Games : GUID := mkGuid 83
def FOLDERID_SEARCH_MAPI : GUID := mkGuid 84
def FOLDERID_SEARCH_CSC : GUID := mkGuid 85
def FOLDERID_Links : GUID := mkGuid 86
def FOLDERID_UsersFiles : GUID := mkGuid 87
def FOLDERID_UsersLibraries : GUID := mkGuid 88
def FOLDERID_SearchHome : GUID := mkGuid 89
def FOLDERID_OriginalImages : GUID := mkGuid 90
def FOLDERID_DocumentsLibrary : GUID := mkGuid 91
def FOLDERID_MusicLibrary : GUID := mkGuid 92
def FOLDERID_PicturesLibrary : GUID := mkGuid 93
def FOLDERID_VideosLibrary : GUID := mkGuid 94
def FOLDERID_RecordedTVLibrary : GUID := mkGuid 95
def FOLDERID_HomeGroup : GUID := mkGuid 96
def FOLDERID_HomeGroupCurrentUser : GUID := mkGuid 97
def FOLDERID_DeviceMetadataStore : GUID := mkGuid 98
def FOLDERID_Libraries : GUID := mkGuid 99
def FOLDERID_PublicLibraries : GUID := mkGuid 100
def FOLDERID_UserPinned : GUID := mkGuid 101
def FOLDERID_ImplicitAppShortcuts : GUID := mkGuid 102
def FOLDERID_AccountPictures : GUID := mkGuid 103
def FOLDERID_PublicUserTiles : GUID := mkGuid 104
def FOLDERID_AppsFolder : GUID := mkGuid 105
def FOLDERID_StartMenuAllPrograms : GUID := mkGuid 106
def FOLDERID_CommonStartMenuPlaces : GUID := mkGuid 107
def FOLDERID_ApplicationShortcuts : GUID := mkGuid 108
def FOLDERID_RoamingTiles : GUID := mkGuid 109
def FOLDERID_RoamedTileImages : GUID := mkGuid 110
def FOLDERID_Screenshots : GUID := mkGuid 111
def FOLDERID_CameraRoll : GUID := mkGuid 112
def FOLDERID_SkyDrive : GUID := mkGuid 113
def FOLDERID_OneDrive : GUID := mkGuid 114
def FOLDERID_SkyDriveDocuments : GUID := mkGuid 115
def FOLDERID_SkyDrivePictures : GUID := mkGuid 116
def FOLDERID_SkyDriveMusic : GUID := mkGuid 117
def FOLDERID_SkyDriveCameraRoll : GUID := mkGuid 118
def FOLDERID_SearchHistory : GUID := mkGuid 119
def FOLDERID_SearchTemplates : GUID := mkGuid 120
def FOLDERID_CameraRollLibrary : GUID := mkGuid 121
def FOLDERID_SavedPictures : GUID := mkGuid 122
def FOLDERID_SavedPicturesLibrary : GUID := mkGuid 123
def FOLDERID_RetailDemo : GUID := mkGuid 124
def FOLDERID_Device : GUID := mkGuid 125
def FOLDERID_DevelopmentFiles : GUID := mkGuid 126
def FOLDERID_Objects3D : GUID := mkGuid 127
def FOLDERID_AppCaptures : GUID := mkGuid 128
def FOLDERID_LocalDocuments : GUID := mkGuid 129
def FOLDERID_LocalPictures : GUID := mkGuid 130
def FOLDERID_LocalVideos : GUID := mkGuid 131
def FOLDERID_LocalMusic : GUID := mkGuid 132
def FOLDERID_LocalDownloads : GUID := mkGuid 133
def FOLDERID_RecordedCalls : GUID := mkGuid 134
def FOLDERID_AllAppMods : GUID := mkGuid 135
def FOLDERID_CurrentAppMods : GUID := mkGuid 136
def FOLDERID_AppDataDesktop : GUID := mkGuid 137
def FOLDERID_AppDataDocuments : GUID := mkGuid 138
def FOLDERID_AppDataFavorites : GUID := mkGuid 139
def FOLDERID_AppDataProgramData : GUID := mkGuid 140

/-- The closed enumeration of known-folder concepts (src/lib.rs, enum
FolderId), one constructor per variant, in source order. -/
inductive FolderId where
  | NetworkFolder
  | ComputerFolder
  | InternetFolder
  | ControlPanelFolder
  | PrintersFolder
  | SyncManagerFolder
  | SyncSetupFolder
  | ConflictFolder
  | SyncResultsFolder
  | RecycleBinFolder
  | ConnectionsFolder
  | Fonts
  | Desktop
  | Startup
  | Programs
  | StartMenu
  | Recent
  | SendTo
  | Documents
  | Favorites
  | NetHood
  | PrintHood
  | Templates
  | CommonStartup
  | CommonPrograms
  | CommonStartMenu
  | PublicDesktop
  | ProgramData
  | CommonTemplates
  | PublicDocuments
  | RoamingAppData
  | LocalAppData
  | LocalAppDataLow
  | InternetCache
  | Cookies
  | History
  | System
  | SystemX86
  | Windows
  | Profile
  | Pictures
  | ProgramFilesX86
  | ProgramFilesCommonX86
  | ProgramFilesX64
  | ProgramFilesCommonX64
  | ProgramFiles
  | ProgramFilesCommon
  | UserProgramFiles
  | UserProgramFilesCommon
  | AdminTools
  | CommonAdminTools
  | Music
  | Videos
  | Ringtones
  | PublicPictures
  | PublicMusic
  | PublicVideos
  | PublicRingtones
  | ResourceDir
  | LocalizedResourcesDir
  | CommonOEMLinks
  | CDBurning
  | UserProfiles
  | Playlists
  | SamplePlaylists
  | SampleMusic
  | SamplePictures
  | SampleVideos
  | PhotoAlbums
  | Public
  | ChangeRemovePrograms
  | AppUpdates
  | AddNewPrograms
  | Downloads
  | PublicDownloads
  | SavedSearches
  | QuickLaunch
  | Contacts
  | SidebarParts
  | SidebarDefaultParts
  | PublicGameTasks
  | GameTasks
  | SavedGames
  | Games
  | SearchMapi
  | SearchCsc
  | Links
  | UsersFiles
  | UsersLibraries
  | SearchHome
  | OriginalImages
  | DocumentsLibrary
  | MusicLibrary
  | PicturesLibrary
  | VideosLibrary
  | RecordedTVLibrary
  | HomeGroup
  | HomeGroupCurrentUser
  | DeviceMetadataStore
  | Libraries
  | PublicLibraries
  | UserPinned
  | ImplicitAppShortcuts
  | AccountPictures
  | PublicUserTiles
  | AppsFolder
  | StartMenuAllPrograms
  | CommonStartMenuPlaces
  | ApplicationShortcuts
  | RoamingTiles
  | RoamedTileImages
  | Screenshots
  | CameraRoll
  | SkyDrive
  | OneDrive
  | SkyDriveDocuments
  | SkyDrivePictures
  | SkyDriveMusic
  | SkyDriveCameraRoll
  | SearchHistory
  | SearchTemplates
  | CameraRollLibrary
  | SavedPictures
  | SavedPicturesLibrary
  | RetailDemo
  | Device
  | DevelopmentFiles
  | Objects3D
  | AppCaptures
  | LocalDocuments
  | LocalPictures
  | LocalVideos
  | LocalMusic
  | LocalDownloads
  | RecordedCalls
  | AllAppMods
  | CurrentAppMods
  | AppDataDesktop
  | AppDataDocuments
  | AppDataFavorites
  | AppDataProgramData
deriving DecidableEq, Fintype, Repr

/-- The discriminant of a FolderId variant, as produced by the Rust cast
`id as usize` (NetworkFolder = 0, the rest sequential). -/
def FolderId.toUsize : FolderId → Nat
  | .NetworkFolder => 0
  | .ComputerFolder => 1
  | .InternetFolder => 2
  | .ControlPanelFolder => 3
  | .PrintersFolder => 4
  | .SyncManagerFolder => 5
  | .SyncSetupFolder => 6
  | .ConflictFolder => 7
  | .SyncResultsFolder => 8
  | .RecycleBinFolder => 9
  | .ConnectionsFolder => 10
  | .Fonts => 11
  | .Desktop => 12
  | .Startup => 13
  | .Programs => 14
  | .StartMenu => 15
  | .Recent => 16
  | .SendTo => 17
  | .Documents => 18
  | .Favorites => 19
  | .NetHood => 20
  | .PrintHood => 21
  | .Templates => 22
  | .CommonStartup => 23
  | .CommonPrograms => 24
  | .CommonStartMenu => 25
  | .PublicDesktop => 26
  | .ProgramData => 27
  | .CommonTemplates => 28
  | .PublicDocuments => 29
  | .RoamingAppData => 30
  | .LocalAppData => 31
  | .LocalAppDataLow => 32
  | .InternetCache => 33
  | .Cookies => 34
  | .History => 35
  | .System => 36
  | .SystemX86 => 37
  | .Windows => 38
  | .Profile => 39
  | .Pictures => 40
  | .ProgramFilesX86 => 41
  | .ProgramFilesCommonX86 => 42
  | .ProgramFilesX64 => 43
  | .ProgramFilesCommonX64 => 44
  | .ProgramFiles => 45
  | .ProgramFilesCommon => 46
  | .UserProgramFiles => 47
  | .UserProgramFilesCommon => 48
  | .AdminTools => 49
  | .CommonAdminTools => 50
  | .Music => 51
  | .Videos => 52
  | .Ringtones => 53
  | .PublicPictures => 54
  | .PublicMusic => 55
  | .PublicVideos => 56
  | .PublicRingtones => 57
  | .ResourceDir => 58
  | .LocalizedResourcesDir => 59
  | .CommonOEMLinks => 60
  | .CDBurning => 61
  | .UserProfiles => 62
  | .Playlists => 63
  | .SamplePlaylists => 64
  | .SampleMusic => 65
  | .SamplePictures => 66
  | .SampleVideos => 67
  | .PhotoAlbums => 68
  | .Public => 69
  | .ChangeRemovePrograms => 70
  | .AppUpdates => 71
  | .AddNewPrograms => 72
  | .Downloads => 73
  | .PublicDownloads => 74
  | .SavedSearches => 75
  | .QuickLaunch => 76
  | .Contacts => 77
  | .SidebarParts => 78
  | .SidebarDefaultParts => 79
  | .PublicGameTasks => 80
  | .GameTasks => 81
  | .SavedGames => 82
  | .Games => 83
  | .SearchMapi => 84
  | .SearchCsc => 85
  | .Links => 86
  | .UsersFiles => 87
  | .UsersLibraries => 88
  | .SearchHome => 89
  | .OriginalImages => 90
  | .DocumentsLibrary => 91
  | .MusicLibrary => 92
  | .PicturesLibrary => 93
  | .VideosLibrary => 94
  | .RecordedTVLibrary => 95
  | .HomeGroup => 96
  | .HomeGroupCurrentUser => 97
  | .DeviceMetadataStore => 98
  | .Libraries => 99
  | .PublicLibraries => 100
  | .UserPinned => 101
  | .ImplicitAppShortcuts => 102
  | .AccountPictures => 103
  | .PublicUserTiles => 104
  | .AppsFolder => 105
  | .StartMenuAllPrograms => 106
  | .CommonStartMenuPlaces => 107
  | .ApplicationShortcuts => 108
  | .RoamingTiles => 109
  | .RoamedTileImages => 110
  | .Screenshots => 111
  | .CameraRoll => 112
  | .SkyDrive => 113
  | .OneDrive => 114
  | .SkyDriveDocuments => 115
  | .SkyDrivePictures => 116
  | .SkyDriveMusic => 117
  | .SkyDriveCameraRoll => 118
  | .SearchHistory => 119
  | .SearchTemplates => 120
  | .CameraRollLibrary => 121
  | .SavedPictures => 122
  | .SavedPicturesLibrary => 123
  | .RetailDemo => 124
  | .Device => 125
  | .DevelopmentFiles => 126
  | .Objects3D => 127
  | .AppCaptures => 128
  | .LocalDocuments => 129
  | .LocalPictures => 130
  | .LocalVideos => 131
  | .LocalMusic => 132
  | .LocalDownloads => 133
  | .RecordedCalls => 134
  | .AllAppMods => 135
  | .CurrentAppMods => 136
  | .AppDataDesktop => 137
  | .AppDataDocuments => 138
  | .AppDataFavorites => 139
  | .AppDataProgramData => 140

/-- The identifier table (src/lib.rs, static FOLDER_IDS), listing the
FOLDERID constants in source order. -/
def FOLDER_IDS : List GUID := [
  FOLDERID_NetworkFolder,
  FOLDERID_ComputerFolder,
  FOLDERID_InternetFolder,
  FOLDERID_ControlPanelFolder,
  FOLDERID_PrintersFolder,
  FOLDERID_SyncManagerFolder,
  FOLDERID_SyncSetupFolder,
  FOLDERID_ConflictFolder,
  FOLDERID_SyncResultsFolder,
  FOLDERID_RecycleBinFolder,
  FOLDERID_ConnectionsFolder,
  FOLDERID_Fonts,
  FOLDERID_Desktop,
  FOLDERID_Startup,
  FOLDERID_Programs,
  FOLDERID_StartMenu,
  FOLDERID_Recent,
  FOLDERID_SendTo,
  FOLDERID_Documents,
  FOLDERID_Favorites,
  FOLDERID_NetHood,
  FOLDERID_PrintHood,
  FOLDERID_Templates,
  FOLDERID_CommonStartup,
  FOLDERID_CommonPrograms,
  FOLDERID_CommonStartMenu,
  FOLDERID_PublicDesktop,
  FOLDERID_ProgramData,
  FOLDERID_CommonTemplates,
  FOLDERID_PublicDocuments,
  FOLDERID_RoamingAppData,
  FOLDERID_LocalAppData,
  FOLDERID_LocalAppDataLow,
  FOLDERID_InternetCache,
  FOLDERID_Cookies,
  FOLDERID_History,
  FOLDERID_System,
  FOLDERID_SystemX86,
  FOLDERID_Windows,
  FOLDERID_Profile,
  FOLDERID_Pictures,
  FOLDERID_ProgramFilesX86,
  FOLDERID_ProgramFilesCommonX86,
  FOLDERID_ProgramFilesX64,
  FOLDERID_ProgramFilesCommonX64,
  FOLDERID_ProgramFiles,
  FOLDERID_ProgramFilesCommon,
  FOLDERID_UserProgramFiles,
  FOLDERID_UserProgramFilesCommon,
  FOLDERID_AdminTools,
  FOLDERID_CommonAdminTools,
  FOLDERID_Music,
  FOLDERID_Videos,
  FOLDERID_Ringtones,
  FOLDERID_PublicPictures,
  FOLDERID_PublicMusic,
  FOLDERID_PublicVideos,
  FOLDERID_PublicRingtones,
  FOLDERID_ResourceDir,
  FOLDERID_LocalizedResourcesDir,
  FOLDERID_CommonOEMLinks,
  FOLDERID_CDBurning,
  FOLDERID_UserProfiles,
  FOLDERID_Playlists,
  FOLDERID_SamplePlaylists,
  FOLDERID_SampleMusic,
  FOLDERID_SamplePictures,
  FOLDERID_SampleVideos,
  FOLDERID_PhotoAlbums,
  FOLDERID_Public,
  FOLDERID_ChangeRemovePrograms,
  FOLDERID_AppUpdates,
  FOLDERID_AddNewPrograms,
  FOLDERID_Downloads,
  FOLDERID_PublicDownloads,
  FOLDERID_SavedSearches,
  FOLDERID_QuickLaunch,
  FOLDERID_Contacts,
  FOLDERID_SidebarParts,
  FOLDERID_SidebarDefaultParts,
  FOLDERID_PublicGameTasks,
  FOLDERID_GameTasks,
  FOLDERID_SavedGames,
  FOLDERID_Games,
  FOLDERID_SEARCH_MAPI,
  FOLDERID_SEARCH_CSC,
  FOLDERID_Links,
  FOLDERID_UsersFiles,
  FOLDERID_UsersLibraries,
  FOLDERID_SearchHome,
  FOLDERID_OriginalImages,
  FOLDERID_DocumentsLibrary,
  FOLDERID_MusicLibrary,
  FOLDERID_PicturesLibrary,
  FOLDERID_VideosLibrary,
  FOLDERID_RecordedTVLibrary,
  FOLDERID_HomeGroup,
  FOLDERID_HomeGroupCurrentUser,
  FOLDERID_DeviceMetadataStore,
  FOLDERID_Libraries,
  FOLDERID_PublicLibraries,
  FOLDERID_UserPinned,
  FOLDERID_ImplicitAppShortcuts,
  FOLDERID_AccountPictures,
  FOLDERID_PublicUserTiles,
  FOLDERID_AppsFolder,
  FOLDERID_StartMenuAllPrograms,
  FOLDERID_CommonStartMenuPlaces,
  FOLDERID_ApplicationShortcuts,
  FOLDERID_RoamingTiles,
  FOLDERID_RoamedTileImages,
  FOLDERID_Screenshots,
  FOLDERID_CameraRoll,
  FOLDERID_SkyDrive,
  FOLDERID_OneDrive,
  FOLDERID_SkyDriveDocuments,
  FOLDERID_SkyDrivePictures,
  FOLDERID_SkyDriveMusic,
  FOLDERID_SkyDriveCameraRoll,
  FOLDERID_SearchHistory,
  FOLDERID_SearchTemplates,
  FOLDERID_CameraRollLibrary,
  FOLDERID_SavedPictures,
  FOLDERID_SavedPicturesLibrary,
  FOLDERID_RetailDemo,
  FOLDERID_Device,
  FOLDERID_DevelopmentFiles,
  FOLDERID_Objects3D,
  FOLDERID_AppCaptures,
  FOLDERID_LocalDocuments,
  FOLDERID_LocalPictures,
  FOLDERID_LocalVideos,
  FOLDERID_LocalMusic,
  FOLDERID_LocalDownloads,
  FOLDERID_RecordedCalls,
  FOLDERID_AllAppMods,
  FOLDERID_CurrentAppMods,
  FOLDERID_AppDataDesktop,
  FOLDERID_AppDataDocuments,
  FOLDERID_AppDataFavorites,
  FOLDERID_AppDataProgramData
]

/-- The native identifier a FolderId variant names, paired by constant
name rather than by table position: this is the spec-side mapping used to
check that the positional table stays aligned with the enumeration. -/
def FolderId.guidOf : FolderId → GUID
  | .NetworkFolder => FOLDERID_NetworkFolder
  | .ComputerFolder => FOLDERID_ComputerFolder
  | .InternetFolder => FOLDERID_InternetFolder
  | .ControlPanelFolder => FOLDERID_ControlPanelFolder
  | .PrintersFolder => FOLDERID_PrintersFolder
  | .SyncManagerFolder => FOLDERID_SyncManagerFolder
  | .SyncSetupFolder => FOLDERID_SyncSetupFolder
  | .ConflictFolder => FOLDERID_ConflictFolder
  | .SyncResultsFolder => FOLDERID_SyncResultsFolder
  | .RecycleBinFolder => FOLDERID_RecycleBinFolder
  | .ConnectionsFolder => FOLDERID_ConnectionsFolder
  | .Fonts => FOLDERID_Fonts
  | .Desktop => FOLDERID_Desktop
  | .Startup => FOLDERID_Startup
  | .Programs => FOLDERID_Programs
  | .StartMenu => FOLDERID_StartMenu
  | .Recent => FOLDERID_Recent
  | .SendTo => FOLDERID_SendTo
  | .Documents => FOLDERID_Documents
  | .Favorites => FOLDERID_Favorites
  | .NetHood => FOLDERID_NetHood
  | .PrintHood => FOLDERID_PrintHood
  | .Templates => FOLDERID_Templates
  | .CommonStartup => FOLDERID_CommonStartup
  | .CommonPrograms => FOLDERID_CommonPrograms
  | .CommonStartMenu => FOLDERID_CommonStartMenu
  | .PublicDesktop => FOLDERID_PublicDesktop
  | .ProgramData => FOLDERID_ProgramData
  | .CommonTemplates => FOLDERID_CommonTemplates
  | .PublicDocuments => FOLDERID_PublicDocuments
  | .RoamingAppData => FOLDERID_RoamingAppData
  | .LocalAppData => FOLDERID_LocalAppData
  | .LocalAppDataLow => FOLDERID_LocalAppDataLow
  | .InternetCache => FOLDERID_InternetCache
  | .Cookies => FOLDERID_Cookies
  | .History => FOLDERID_History
  | .System => FOLDERID_System
  | .SystemX86 => FOLDERID_SystemX86
  | .Windows => FOLDERID_Windows
  | .Profile => FOLDERID_Profile
  | .Pictures => FOLDERID_Pictures
  | .ProgramFilesX86 => FOLDERID_ProgramFilesX86
  | .ProgramFilesCommonX86 => FOLDERID_ProgramFilesCommonX86
  | .ProgramFilesX64 => FOLDERID_ProgramFilesX64
  | .ProgramFilesCommonX64 => FOLDERID_ProgramFilesCommonX64
  | .ProgramFiles => FOLDERID_ProgramFiles
  | .ProgramFilesCommon => FOLDERID_ProgramFilesCommon
  | .UserProgramFiles => FOLDERID_UserProgramFiles
  | .UserProgramFilesCommon => FOLDERID_UserProgramFilesCommon
  | .AdminTools => FOLDERID_AdminTools
  | .CommonAdminTools => FOLDERID_CommonAdminTools
  | .Music => FOLDERID_Music
  | .Videos => FOLDERID_Videos
  | .Ringtones => FOLDERID_Ringtones
  | .PublicPictures => FOLDERID_PublicPictures
  | .PublicMusic => FOLDERID_PublicMusic
  | .PublicVideos => FOLDERID_PublicVideos
  | .PublicRingtones => FOLDERID_PublicRingtones
  | .ResourceDir => FOLDERID_ResourceDir
  | .LocalizedResourcesDir => FOLDERID_LocalizedResourcesDir
  | .CommonOEMLinks => FOLDERID_CommonOEMLinks
  | .CDBurning => FOLDERID_CDBurning
  | .UserProfiles => FOLDERID_UserProfiles
  | .Playlists => FOLDERID_Playlists
  | .SamplePlaylists => FOLDERID_SamplePlaylists
  | .SampleMusic => FOLDERID_SampleMusic
  | .SamplePictures => FOLDERID_SamplePictures
  | .SampleVideos => FOLDERID_SampleVideos
  | .PhotoAlbums => FOLDERID_PhotoAlbums
  | .Public => FOLDERID_Public
  | .ChangeRemovePrograms => FOLDERID_ChangeRemovePrograms
  | .AppUpdates => FOLDERID_AppUpdates
  | .AddNewPrograms => FOLDERID_AddNewPrograms
  | .Downloads => FOLDERID_Downloads
  | .PublicDownloads => FOLDERID_PublicDownloads
  | .SavedSearches => FOLDERID_SavedSearches
  | .QuickLaunch => FOLDERID_QuickLaunch
  | .Contacts => FOLDERID_Contacts
  | .SidebarParts => FOLDERID_SidebarParts
  | .SidebarDefaultParts => FOLDERID_SidebarDefaultParts
  | .PublicGameTasks => FOLDERID_PublicGameTasks
  | .GameTasks => FOLDERID_GameTasks
  | .SavedGames => FOLDERID_SavedGames
  | .Games => FOLDERID_Games
  | .SearchMapi => FOLDERID_SEARCH_MAPI
  | .SearchCsc => FOLDERID_SEARCH_CSC
  | .Links => FOLDERID_Links
  | .UsersFiles => FOLDERID_UsersFiles
  | .UsersLibraries => FOLDERID_UsersLibraries
  | .SearchHome => FOLDERID_SearchHome
  | .OriginalImages => FOLDERID_OriginalImages
  | .DocumentsLibrary => FOLDERID_DocumentsLibrary
  | .MusicLibrary => FOLDERID_MusicLibrary
  | .PicturesLibrary => FOLDERID_PicturesLibrary
  | .VideosLibrary => FOLDERID_VideosLibrary
  | .RecordedTVLibrary => FOLDERID_RecordedTVLibrary
  | .HomeGroup => FOLDERID_HomeGroup
  | .HomeGroupCurrentUser => FOLDERID_HomeGroupCurrentUser
  | .DeviceMetadataStore => FOLDERID_DeviceMetadataStore
  | .Libraries => FOLDERID_Libraries
  | .PublicLibraries => FOLDERID_PublicLibraries
  | .UserPinned => FOLDERID_UserPinned
  | .ImplicitAppShortcuts => FOLDERID_ImplicitAppShortcuts
  | .AccountPictures => FOLDERID_AccountPictures
  | .PublicUserTiles => FOLDERID_PublicUserTiles
  | .AppsFolder => FOLDERID_AppsFolder
  | .StartMenuAllPrograms => FOLDERID_StartMenuAllPrograms
  | .CommonStartMenuPlaces => FOLDERID_CommonStartMenuPlaces
  | .ApplicationShortcuts => FOLDERID_ApplicationShortcuts
  | .RoamingTiles => FOLDERID_RoamingTiles
  | .RoamedTileImages => FOLDERID_RoamedTileImages
  | .Screenshots => FOLDERID_Screenshots
  | .CameraRoll => FOLDERID_CameraRoll
  | .SkyDrive => FOLDERID_SkyDrive
  | .OneDrive => FOLDERID_OneDrive
  | .SkyDriveDocuments => FOLDERID_SkyDriveDocuments
  | .SkyDrivePictures => FOLDERID_SkyDrivePictures
  | .SkyDriveMusic => FOLDERID_SkyDriveMusic
  | .SkyDriveCameraRoll => FOLDERID_SkyDriveCameraRoll
  | .SearchHistory => FOLDERID_SearchHistory
  | .SearchTemplates => FOLDERID_SearchTemplates
  | .CameraRollLibrary => FOLDERID_CameraRollLibrary
  | .SavedPictures => FOLDERID_SavedPictures
  | .SavedPicturesLibrary => FOLDERID_SavedPicturesLibrary
  | .RetailDemo => FOLDERID_RetailDemo
  | .Device => FOLDERID_Device
  | .DevelopmentFiles => FOLDERID_DevelopmentFiles
  | .Objects3D => FOLDERID_Objects3D
  | .AppCaptures => FOLDERID_AppCaptures
  | .LocalDocuments => FOLDERID_LocalDocuments
  | .LocalPictures => FOLDERID_LocalPictures
  | .LocalVideos => FOLDERID_LocalVideos
  | .LocalMusic => FOLDERID_LocalMusic
  | .LocalDownloads => FOLDERID_LocalDownloads
  | .RecordedCalls => FOLDERID_RecordedCalls
  | .AllAppMods => FOLDERID_AllAppMods
  | .CurrentAppMods => FOLDERID_CurrentAppMods
  | .AppDataDesktop => FOLDERID_AppDataDesktop
  | .AppDataDocuments => FOLDERID_AppDataDocuments
  | .AppDataFavorites => FOLDERID_AppDataFavorites
  | .AppDataProgramData => FOLDERID_AppDataProgramData

/-- The response the platform leaves behind after one SHGetKnownFolderPath
call: the HRESULT return value (an i32, modelled as the mathematical
integer it denotes), the buffer pointer it stored through the out
parameter (`none` models a null pointer, `some ws` a buffer of 16-bit code
units), and the thread's last-error value that a subsequent
`std::io::Error::last_os_error()` would observe. -/
structure PlatformResponse where
  ret : Int
  ptr : Option (List Nat)
  lastError : Nat

/-- The platform oracle: SHGetKnownFolderPath as a fixed function of its
arguments (folder identifier, flags, access token; the out parameter is
captured by the response). -/
def Platform : Type := GUID → Nat → Option Nat → PlatformResponse

/-- One observable platform side effect performed by the resolver: a
folder-path query with its arguments, or a CoTaskMemFree of the pointer
the query left behind (`none` records freeing a null pointer). -/
inductive Event where
  | query (id : GUID) (flags : Nat) (token : Option Nat)
  | free (ptr : Option (List Nat))
deriving DecidableEq, Repr

def Event.isFree : Event → Bool
  | .free _ => true
  | _ => false

def Event.isQuery : Event → Bool
  | .query _ _ _ => true
  | _ => false

/-- A `std::io::Error` obtained from `last_os_error()`, reduced to the OS
error code it carries. -/
structure IoError where
  rawOsError : Nat
deriving DecidableEq, Repr

/-- The error taxonomy (src/lib.rs, enum Error). -/
inductive Error where
  | Virtual
  | NotFound
  | InvalidArg (detail : IoError)
  | Other (code : Nat) (detail : IoError)
deriving DecidableEq, Repr

/-- The Display implementation for Error (src/lib.rs, impl Display). -/
def Error.display : Error → String
  | .Virtual => "virtual folders have no path"
  | .NotFound => "not found"
  | .InvalidArg _ => "invalid arg"
  | .Other _ _ => "other"

/-- Reinterpret a u32 bit pattern as the i32 it denotes (Rust `as i32`). -/
def i32ofU32 (n : Nat) : Int :=
  if n < 2 ^ 31 then (n : Int) else (n : Int) - 2 ^ 32

/-- Reinterpret an i32 value as the u32 it denotes (Rust `e as u32`). -/
def u32ofI32 (e : Int) : Nat :=
  (e % 2 ^ 32).toNat

def S_OK : Int := 0

def E_FAIL : Int := i32ofU32 0x80004005

def E_INVALIDARG : Int := i32ofU32 0x80070057

def NOT_FOUND : Int := i32ofU32 0x80070002

def CANNOT_FIND_PATH : Int := i32ofU32 0x80070003

/-- lstrlenW: the number of 16-bit code units before the first NUL.  The
real platform buffer is NUL terminated; in the model the end of the list
acts as the terminator when no NUL occurs. -/
def lstrlenW (ws : List Nat) : Nat :=
  (ws.takeWhile (fun c => c ≠ 0)).length

/-- A resolved path: the wide-character units decoded by
`OsString::from_wide` and wrapped into a `PathBuf`. -/
def PathBuf : Type := List Nat

/-- The raw resolver (src/lib.rs, fn raw_known_folder_path): issue the
platform query with flags 0 and no token, classify the HRESULT, build the
path from the buffer's units up to the first NUL on success, and free the
buffer on every path.  The second component is the list of platform side
effects in the order they happen. -/
def raw_known_folder_path (plat : Platform) (id : GUID) :
    Except Error PathBuf × List Event :=
  let resp := plat id 0 none
  let ptr := resp.ptr
  let result : Except Error PathBuf :=
    if resp.ret = S_OK then
      let buf := ptr.getD []
      let len := lstrlenW buf
      .ok (buf.take len)
    else if resp.ret = E_FAIL then
      .error .Virtual
    else if resp.ret = E_INVALIDARG then
      .error (.InvalidArg ⟨resp.lastError⟩)
    else if resp.ret = NOT_FOUND ∨ resp.ret = CANNOT_FIND_PATH then
      .error .NotFound
    else
      .error (.Other (u32ofI32 resp.ret) ⟨resp.lastError⟩)
  (result, [Event.query id 0 none, Event.free ptr])

/-- The public entry point (src/lib.rs, fn known_folder_path): index the
table by the variant's discriminant and hand the identifier to the raw
resolver.  `none` models the panic an out-of-bounds index would raise. -/
def known_folder_path (plat : Platform) (id : FolderId) :
    Option (Except Error PathBuf × List Event) :=
  (FOLDER_IDS.get? id.toUsize).map (raw_known_folder_path plat)

/-- A platform stub that answers every query identically; used to
instantiate theorems at concrete inputs. -/
def constPlat (ret : Int) (ptr : Option (List Nat)) (lastError : Nat) :
    Platform :=
  fun _ _ _ => ⟨ret, ptr, lastError⟩

/-- The categories of result codes that the spec's classification sentence
covers: the success code S_OK, the four special-cased codes, and the
remaining non-success (negative) HRESULT codes. -/
def specClassified (ret : Int) : Prop :=
  ret = S_OK ∨ ret = E_FAIL ∨ ret = E_INVALIDARG ∨ ret = NOT_FOUND ∨
    ret = CANNOT_FIND_PATH ∨ ret < 0

set_option maxRecDepth 8192 in
/-- Helper: the table lookup at a variant's discriminant hits the entry
whose constant name matches the variant. -/
theorem folder_ids_lookup (id : FolderId) :
    FOLDER_IDS.get? id.toUsize = some id.guidOf := by
  cases id <;> rfl

/-- Helper: taking `lstrlenW` units is exactly taking the prefix before
the first NUL. -/
theorem take_lstrlenW (l : List Nat) :
    l.take (lstrlenW l) = l.takeWhile (fun c => c ≠ 0) := by
  induction l with
  | nil => rfl
  | cons a l ih =>
    by_cases ha : a = 0
    · subst ha
      simp [lstrlenW, List.takeWhile_cons]
    · simp [lstrlenW, List.takeWhile_cons, ha] at ih ⊢
      exact ih

/-- Helper: one step of the NUL-scan on a cons cell. -/
theorem takeWhile_ne_cons (a : Nat) (l : List Nat) :
    (a :: l).takeWhile (fun c => c ≠ 0) =
      if a = 0 then [] else a :: l.takeWhile (fun c => c ≠ 0) := by
  by_cases h : a = 0 <;> simp [List.takeWhile_cons, h]

/-- Helper: the prefix before the first NUL of `pre ++ 0 :: rest` is `pre`
when `pre` is NUL-free. -/
theorem takeWhile_before_nul (pre rest : List Nat)
    (hpre : ∀ x ∈ pre, x ≠ 0) :
    (pre ++ 0 :: rest).takeWhile (fun c => c ≠ 0) = pre := by
  induction pre with
  | nil => simp [takeWhile_ne_cons]
  | cons a p ih =>
    have ha : a ≠ 0 := hpre a (by simp)
    rw [List.cons_append, takeWhile_ne_cons, if_neg ha,
      ih (fun x hx => hpre x (by simp [hx]))]

/-- Helper: reinterpreting a 32-bit value as i32 and back as u32 is the
identity. -/
theorem u32_roundtrip (n : Nat) (hn : n < 2 ^ 32) :
    u32ofI32 (i32ofU32 n) = n := by
  unfold u32ofI32 i32ofU32
  by_cases h : n < 2 ^ 31 <;> simp [h] <;> omega

set_option maxRecDepth 8192 in
/-- Claim C3: the identifier table has exactly as many entries as the
FolderId enumeration has variants, and for every variant the positional
lookup at its discriminant is in bounds and yields the identifier whose
constant name matches the variant, so the public entry point never
indexes out of bounds (never panics). -/
theorem c3_table_aligned :
    FOLDER_IDS.length = Fintype.card FolderId ∧
      ∀ id : FolderId,
        id.toUsize < FOLDER_IDS.length ∧
          FOLDER_IDS.get? id.toUsize = some id.guidOf ∧
          ∀ plat : Platform, (known_folder_path plat id).isSome = true := by
  refine ⟨by decide, ?_⟩
  intro id
  cases id <;> exact ⟨by decide, rfl, fun _ => rfl⟩

/-- Claim C2: on every execution path — the success branch and each error
branch, including the case where the platform left the output pointer
null — the resolver performs exactly one CoTaskMemFree, recorded as the
last platform event before the result is returned. -/
theorem c2_free_exactly_once (plat : Platform) (id : GUID) :
    ((raw_known_folder_path plat id).2.filter Event.isFree).length = 1 ∧
      (raw_known_folder_path plat id).2.getLast? =
        some (Event.free (plat id 0 none).ptr) :=
  ⟨rfl, rfl⟩

/-- Claim C8: the resolver performs exactly one platform folder-path query
per invocation, with the flags argument equal to zero and no user token,
and its trace holds no other query event (no retry, no fallback, no
force-creation flag). -/
theorem c8_single_query (plat : Platform) (id : GUID) :
    (raw_known_folder_path plat id).2.filter Event.isQuery =
      [Event.query id 0 none] :=
  rfl

/-- Claim C9: the human-readable summary of each error kind is exactly the
fixed string per kind, regardless of any payload the error carries. -/
theorem c9_display_strings (d : IoError) (c : Nat) :
    Error.display .Virtual = "virtual folders have no path" ∧
      Error.display .NotFound = "not found" ∧
      Error.display (.InvalidArg d) = "invalid arg" ∧
      Error.display (.Other c d) = "other" :=
  ⟨rfl, rfl, rfl, rfl⟩

/-- Claim C7: resolution is deterministic: two resolutions of the same
identifier against platforms that answer the query identically (an
unchanged platform, modelled as a fixed function) produce identical
results — the same path on success, the same error on failure — and
identical event traces. -/
theorem c7_deterministic (plat1 plat2 : Platform) (id : GUID)
    (h : plat1 id 0 none = plat2 id 0 none) :
    raw_known_folder_path plat1 id = raw_known_folder_path plat2 id := by
  unfold raw_known_folder_path
  rw [h]

/-- Witness for C7 at a concrete platform and identifier. -/
theorem c7_deterministic_witness :
    raw_known_folder_path (constPlat S_OK (some [67, 0]) 0) FOLDERID_Desktop =
      raw_known_folder_path (constPlat S_OK (some [67, 0]) 0) FOLDERID_Desktop :=
  c7_deterministic (constPlat S_OK (some [67, 0]) 0)
    (constPlat S_OK (some [67, 0]) 0) FOLDERID_Desktop rfl

/-- Claim C1, counterexample: the result code 1 (a success HRESULT
distinct from S_OK) falls under none of the claim's categories — it is
neither the success code, nor a special-cased code, nor a non-success
code — yet the resolver classifies it, as Other carrying 1: the
catch-all branch takes every remaining code, not only the remaining
non-success codes, so the claimed classification is not exhaustive. -/
theorem c1_counterexample :
    ¬ specClassified 1 ∧
      (raw_known_folder_path (constPlat 1 none 7) FOLDERID_Desktop).1 =
        Except.error (.Other 1 ⟨7⟩) := by
  constructor
  · unfold specClassified
    decide
  · rfl

/-- Claim C1 (amended): for every platform and identifier, the resolver
classifies the result code exhaustively: S_OK yields Ok with the decoded
path, E_FAIL yields Virtual, E_INVALIDARG yields InvalidArg carrying the
last-error detail, either of the two not-found codes yields NotFound, and
every other code — success or failure — yields Other carrying the code
reinterpreted as unsigned together with the last-error detail. -/
theorem c1_classification (plat : Platform) (id : GUID) :
    ((plat id 0 none).ret = S_OK →
      (raw_known_folder_path plat id).1 =
        Except.ok (((plat id 0 none).ptr.getD []).take
          (lstrlenW ((plat id 0 none).ptr.getD [])))) ∧
    ((plat id 0 none).ret = E_FAIL →
      (raw_known_folder_path plat id).1 = Except.error .Virtual) ∧
    ((plat id 0 none).ret = E_INVALIDARG →
      (raw_known_folder_path plat id).1 =
        Except.error (.InvalidArg ⟨(plat id 0 none).lastError⟩)) ∧
    ((plat id 0 none).ret = NOT_FOUND ∨ (plat id 0 none).ret = CANNOT_FIND_PATH →
      (raw_known_folder_path plat id).1 = Except.error .NotFound) ∧
    ((plat id 0 none).ret ≠ S_OK → (plat id 0 none).ret ≠ E_FAIL →
      (plat id 0 none).ret ≠ E_INVALIDARG → (plat id 0 none).ret ≠ NOT_FOUND →
      (plat id 0 none).ret ≠ CANNOT_FIND_PATH →
      (raw_known_folder_path plat id).1 =
        Except.error (.Other (u32ofI32 (plat id 0 none).ret)
          ⟨(plat id 0 none).lastError⟩)) := by
  refine ⟨?_, ?_, ?_, ?_, ?_⟩
  · intro h
    simp only [raw_known_folder_path]
    rw [if_pos h]
  · intro h
    simp only [raw_known_folder_path]
    rw [h]
    rfl
  · intro h
    simp only [raw_known_folder_path]
    rw [h]
    rfl
  · intro h
    simp only [raw_known_folder_path]
    rcases h with h | h <;> rw [h] <;> rfl
  · intro h1 h2 h3 h4 h5
    simp only [raw_known_folder_path]
    rw [if_neg h1, if_neg h2, if_neg h3, if_neg (not_or.mpr ⟨h4, h5⟩)]

/-- Witness for C1 at a concrete platform returning E_FAIL: the Virtual
branch. -/
theorem c1_classification_witness :
    (raw_known_folder_path (constPlat E_FAIL none 3) FOLDERID_Desktop).1 =
      Except.error .Virtual :=
  (c1_classification (constPlat E_FAIL none 3) FOLDERID_Desktop).2.1 rfl

/-- Claim C5: when the platform returns a code other than the five
classified ones, the resolver returns Other carrying that code
reinterpreted as unsigned — so injecting any 32-bit code (as the i32 it
denotes) yields exactly that code back — together with the platform's
last-error detail. -/
theorem c5_other_preserves_code (plat : Platform) (id : GUID)
    (h1 : (plat id 0 none).ret ≠ S_OK) (h2 : (plat id 0 none).ret ≠ E_FAIL)
    (h3 : (plat id 0 none).ret ≠ E_INVALIDARG)
    (h4 : (plat id 0 none).ret ≠ NOT_FOUND)
    (h5 : (plat id 0 none).ret ≠ CANNOT_FIND_PATH) :
    (raw_known_folder_path plat id).1 =
      Except.error (.Other (u32ofI32 (plat id 0 none).ret)
        ⟨(plat id 0 none).lastError⟩) ∧
      ∀ n, n < 2 ^ 32 → (plat id 0 none).ret = i32ofU32 n →
        u32ofI32 (plat id 0 none).ret = n := by
  constructor
  · simp only [raw_known_folder_path]
    rw [if_neg h1, if_neg h2, if_neg h3, if_neg (not_or.mpr ⟨h4, h5⟩)]
  · intro n hn hinj
    rw [hinj, u32_roundtrip n hn]

/-- Witness for C5: an injected unclassified code 0x8000FFFF is carried
through unchanged. -/
theorem c5_other_preserves_code_witness :
    (raw_known_folder_path (constPlat (i32ofU32 0x8000FFFF) none 11)
      FOLDERID_Desktop).1 = Except.error (.Other 0x8000FFFF ⟨11⟩) :=
  (c5_other_preserves_code (constPlat (i32ofU32 0x8000FFFF) none 11)
    FOLDERID_Desktop (by decide) (by decide) (by decide) (by decide)
    (by decide)).1

/-- Claim C6: when the platform honours its contract of rejecting only
malformed identifiers — it returns E_INVALIDARG for no identifier of the
table — the public entry point never returns InvalidArg for any FolderId,
while direct misuse of the raw resolver can produce InvalidArg for any
last-error detail. -/
theorem c6_invalidarg_unreachable (plat : Platform) (id : FolderId)
    (h : ∀ g ∈ FOLDER_IDS, (plat g 0 none).ret ≠ E_INVALIDARG) :
    (∀ res evs d, known_folder_path plat id = some (res, evs) →
        res ≠ Except.error (.InvalidArg d)) ∧
      ∀ n : Nat,
        (raw_known_folder_path (constPlat E_INVALIDARG none n)
          FOLDERID_Desktop).1 = Except.error (.InvalidArg ⟨n⟩) := by
  constructor
  · intro res evs d hk
    have hmem : id.guidOf ∈ FOLDER_IDS := List.get?_mem (folder_ids_lookup id)
    have hg := h id.guidOf hmem
    rw [known_folder_path, folder_ids_lookup id, Option.map_some'] at hk
    have hres : res = (raw_known_folder_path plat id.guidOf).1 := by
      rw [Option.some.inj hk]
    rw [hres]
    simp only [raw_known_folder_path]
    split_ifs <;> simp
  · intro n
    rfl

/-- Witness for C6: under a platform that always answers E_FAIL, the public
entry point's Desktop outcome is Virtual, not InvalidArg. -/
theorem c6_invalidarg_unreachable_witness :
    (Except.error Error.Virtual : Except Error PathBuf) ≠
      Except.error (.InvalidArg ⟨0⟩) :=
  (c6_invalidarg_unreachable (constPlat E_FAIL none 0) FolderId.Desktop
      (fun _ _ => (by decide : E_FAIL ≠ E_INVALIDARG))).1
    (Except.error Error.Virtual)
    [Event.query FOLDERID_Desktop 0 none, Event.free none] ⟨0⟩ rfl

/-- Claim C10: on a successful platform result the returned path is built
from exactly the buffer's wide characters before the first NUL (the
length measured by lstrlenW): everything at or after the first NUL is
dropped, and a buffer that starts with NUL yields Ok with an empty
path. -/
theorem c10_success_decoding (plat : Platform) (id : GUID) (buf : List Nat)
    (h1 : (plat id 0 none).ret = S_OK)
    (h2 : (plat id 0 none).ptr = some buf) :
    (raw_known_folder_path plat id).1 =
        Except.ok (buf.take (lstrlenW buf)) ∧
      buf.take (lstrlenW buf) = buf.takeWhile (fun c => c ≠ 0) ∧
      (∀ pre rest, buf = pre ++ 0 :: rest → (∀ x ∈ pre, x ≠ 0) →
        buf.take (lstrlenW buf) = pre) ∧
      (buf.head? = some 0 →
        (raw_known_folder_path plat id).1 = Except.ok ([] : PathBuf)) := by
  have hmain : (raw_known_folder_path plat id).1 =
      Except.ok (buf.take (lstrlenW buf)) := by
    simp only [raw_known_folder_path]
    rw [if_pos h1, h2]
    rfl
  refine ⟨hmain, take_lstrlenW buf, ?_, ?_⟩
  · intro pre rest hb hpre
    rw [take_lstrlenW, hb, takeWhile_before_nul pre rest hpre]
  · intro hh
    rw [hmain, take_lstrlenW]
    cases buf with
    | nil => rfl
    | cons a l =>
      have ha : a = 0 := by simpa using hh
      subst ha
      rw [takeWhile_ne_cons, if_pos rfl]

/-- Witness for C10: a buffer with characters after the NUL decodes to the
prefix before the NUL. -/
theorem c10_success_decoding_witness :
    (raw_known_folder_path (constPlat S_OK (some [65, 66, 0, 67]) 0)
      FOLDERID_Desktop).1 = Except.ok ([65, 66] : PathBuf) :=
  (c10_success_decoding (constPlat S_OK (some [65, 66, 0, 67]) 0)
    FOLDERID_Desktop [65, 66, 0, 67] rfl rfl).1

/-- Claim C4, counterexample: a platform call that succeeds with a buffer
whose first unit is already the NUL terminator makes the public entry
point return Ok with the empty path, so resolution does not guarantee a
non-empty path on success. -/
theorem c4_counterexample :
    known_folder_path (constPlat S_OK (some [0]) 0) FolderId.Desktop =
      some (Except.ok ([] : PathBuf),
        [Event.query FOLDERID_Desktop 0 none, Event.free (some [0])]) :=
  rfl

/-- Claim C4 (amended): for every platform and identifier — with no
assumption on the platform's answers — the public entry point never
panics (the lookup is in bounds, so it returns a value) and that value is
one of the classified outcomes: Ok, Virtual, NotFound, InvalidArg or
Other, never an unclassified value; and whenever the platform's success
buffer starts with a character other than the NUL terminator, any Ok path
is non-empty. -/
theorem c4_total (plat : Platform) (id : FolderId) :
    ∃ res evs, known_folder_path plat id = some (res, evs) ∧
      ((∃ p, res = Except.ok p) ∨ res = Except.error .Virtual ∨
        res = Except.error .NotFound ∨
        (∃ d, res = Except.error (.InvalidArg d)) ∨
        (∃ c d, res = Except.error (.Other c d))) ∧
      ∀ c buf, (plat id.guidOf 0 none).ptr = some (c :: buf) → c ≠ 0 →
        ∀ p, res = Except.ok p → p ≠ [] := by
  refine ⟨(raw_known_folder_path plat id.guidOf).1,
    (raw_known_folder_path plat id.guidOf).2, ?_, ?_, ?_⟩
  · rw [known_folder_path, folder_ids_lookup id, Option.map_some']
  · simp only [raw_known_folder_path]
    split_ifs with hS hF hI hN
    · exact Or.inl ⟨_, rfl⟩
    · right; left; rfl
    · right; right; right; left; exact ⟨_, rfl⟩
    · right; right; left; rfl
    · right; right; right; right; exact ⟨_, _, rfl⟩
  · intro c buf hp hc p hok
    simp only [raw_known_folder_path] at hok
    rw [hp] at hok
    split_ifs at hok
    · rw [← Except.ok.inj hok, Option.getD_some, take_lstrlenW,
        takeWhile_ne_cons, if_neg hc]
      simp

/-- Witness for C4 at a platform returning a well-formed non-empty
buffer. -/
theorem c4_total_witness :
    ∃ res evs,
      known_folder_path (constPlat S_OK (some [67, 58, 92, 0]) 0)
          FolderId.Documents = some (res, evs) ∧
        ((∃ p, res = Except.ok p) ∨ res = Except.error .Virtual ∨
          res = Except.error .NotFound ∨
          (∃ d, res = Except.error (.InvalidArg d)) ∨
          (∃ c d, res = Except.error (.Other c d))) ∧
        ∀ c buf,
          (constPlat S_OK (some [67, 58, 92, 0]) 0 FolderId.Documents.guidOf
              0 none).ptr = some (c :: buf) → c ≠ 0 →
            ∀ p, res = Except.ok p → p ≠ [] :=
  c4_total (constPlat S_OK (some [67, 58, 92, 0]) 0) FolderId.Documents
end Windirs
